import Mathlib

/-!
Verification of the RFFL median scoring and anomaly detection engine.

The development shallowly embeds the engine of the source repository:
the `ScoringAgent` (strategies `calculateRFFLMedian`,
`calculateStatisticalMedian`, `calculateWeightedMedian`, the validators
`preValidateData` and `validateResult`, the anomaly detectors and their
pipeline, and the fallback orchestration `intelligentCalculator.calculate`),
and the `MedianCalculator` (`calculateMedian`, `validateTeamData`).

Modelling conventions:
* JavaScript numbers are idealised as rationals (`ℚ`); `Math.round` is
  `⌊x + 1/2⌋` (round half toward positive infinity, as in JS) and
  `Math.sqrt` is modelled by a rational floor square root `jsSqrt`
  (exact on perfect squares; every claim settled below is insensitive to
  the approximation on non-squares, as noted at each use).
* JavaScript's special values and dynamic typing are modelled where the
  source depends on them: `JSNum` adds `NaN`, the infinities and
  non-number values to scores seen by the input validators, and `JSVal`
  models the dynamically typed values that `validateResult` and the
  anomaly pipeline pass around (a JS object compared with `>=` coerces to
  `NaN`, `.length` of a plain object is `undefined`, `.map`/`.reduce`/
  `.forEach` of a non-array throws a `TypeError`).
* Wall-clock reads (`performance.now()`, `Date.now()`, `new Date()`) are
  passed in as explicit parameters.
* `Array.prototype.sort` with a comparator is stable in the source's
  runtime (ES2019); it is modelled by a stable insertion sort.
-/

/-- JS `Math.round`: round half toward positive infinity. -/
def jsRound (x : ℚ) : ℚ := (⌊x + 1/2⌋ : ℤ)

/-- `roundScore` / the rounding used by the strategies: `Math.round(x*100)/100`. -/
def round2 (x : ℚ) : ℚ := jsRound (x * 100) / 100

/-- JS `Math.abs` on a rational. -/
def jsAbs (x : ℚ) : ℚ := if x < 0 then -x else x

/-- JS `Math.min` of two numbers. -/
def jsMin2 (a b : ℚ) : ℚ := if a ≤ b then a else b

/-- JS `Math.max` of two numbers. -/
def jsMax2 (a b : ℚ) : ℚ := if a ≤ b then b else a

/-- JS `Math.max(...l)` over a nonempty spread; the empty case (JS would
give `-Infinity`) never occurs in the engine, which always passes the
twelve team scores. -/
def jsMaxList : List ℚ → ℚ
  | [] => 0
  | a :: t => t.foldl jsMax2 a

/-- JS `Math.min(...l)` over a nonempty spread; see `jsMaxList`. -/
def jsMinList : List ℚ → ℚ
  | [] => 0
  | a :: t => t.foldl jsMin2 a

/-- Sum of a list of rationals (JS `reduce((sum, x) => sum + x, 0)`). -/
def listSum : List ℚ → ℚ
  | [] => 0
  | a :: t => a + listSum t

/-- Arithmetic mean, as the source computes it (`sum / length`). -/
def meanQ (l : List ℚ) : ℚ := listSum l / l.length

/-- Population variance, as the source computes it before taking the
square root (`squaredDiffs.reduce(...) / scores.length`). -/
def varianceQ (l : List ℚ) : ℚ :=
  listSum (l.map fun s => (s - meanQ l) ^ 2) / l.length

/-- Newton iteration for the integer square root, with explicit fuel so
that it computes by structural recursion (the fuel of 128 is far beyond
the iterations any input below `2 ^ 128` needs). -/
def isqrtFuel : Nat → Nat → Nat → Nat
  | 0, _, g => g
  | f + 1, n, g =>
    if g = 0 then 0
    else
      let g2 := (g + n / g) / 2
      if g2 < g then isqrtFuel f n g2 else g

/-- Integer (floor) square root of a natural number. -/
def natSqrtQ (n : Nat) : Nat := isqrtFuel 128 n n

/-- The model of JS `Math.sqrt` on a nonnegative rational: the floor
square root of the numerator over the floor square root of the
denominator (exact on perfect squares, which covers every claim-relevant
boundary decision; a negative argument, which JS maps to `NaN`, never
arises — it is only applied to variances). -/
def jsSqrt (q : ℚ) : ℚ := (natSqrtQ q.num.toNat : ℚ) / (natSqrtQ q.den : ℚ)

/-- `calculateStandardDeviation(scores)`: `Math.sqrt(variance)`, with
`Math.sqrt` modelled by `jsSqrt`. -/
def calculateStandardDeviation (l : List ℚ) : ℚ := jsSqrt (varianceQ l)

/-- Stable insertion into a list sorted by the boolean comparator `le`:
`a` goes in front of the first element `b` with `le a b`. -/
def stableInsert (le : α → α → Bool) (a : α) : List α → List α
  | [] => [a]
  | b :: t => if le a b then a :: b :: t else b :: stableInsert le a t

/-- Stable insertion sort, the model of `Array.prototype.sort(cmp)`
(stable in the source's runtime). With `le a b = (b.score ≤ a.score)` it
sorts descending by score keeping input order among ties, matching the
comparator `(a, b) => b.score - a.score`. -/
def stableSort (le : α → α → Bool) : List α → List α
  | [] => []
  | a :: t => stableInsert le a (stableSort le t)

/-- A list paired with 0-based indices, as JS `map((x, index) => ...)`
and `forEach((x, index) => ...)` see it. -/
def withIdx (n : Nat) : List α → List (Nat × α)
  | [] => []
  | a :: t => (n, a) :: withIdx (n + 1) t

/-- Concatenation of the images of `f`, used to collect per-entry
validation error messages. -/
def concatMap (f : α → List β) : List α → List β
  | [] => []
  | a :: t => f a ++ concatMap f t

/-- A JS number-typed value as the input validators can encounter it:
`NaN` and the infinities have `typeof === "number"`; `undefinedV` stands for a
value whose `typeof` is not `"number"`. -/
inductive JSNum where
  | undefinedV
  | nan
  | posInf
  | negInf
  | fin (q : ℚ)
deriving DecidableEq

/-- Whether `typeof v === "number"` holds. -/
def JSNum.isNumberType : JSNum → Bool
  | .undefinedV => false
  | _ => true

/-- JS `isNaN` on a number-typed value. -/
def JSNum.isNaNNum : JSNum → Bool
  | .nan => true
  | _ => false

/-- JS `v < c` for a candidate score against a numeric literal: any
comparison with `NaN` (or a non-number, which coerces to `NaN`) is false. -/
def JSNum.ltNum : JSNum → ℚ → Bool
  | .fin q, c => decide (q < c)
  | .negInf, _ => true
  | _, _ => false

/-- JS `v > c` for a candidate score against a numeric literal. -/
def JSNum.gtNum : JSNum → ℚ → Bool
  | .fin q, c => decide (c < q)
  | .posInf, _ => true
  | _, _ => false

/-- A competitor entry as the strategies consume it: the two identifier
fields of the source (`team`, `canonicalCode`; `none` models a missing or
falsy field), the finite `score` and the projected score `proj`. -/
structure Team where
  team : Option String
  canonicalCode : Option String
  score : ℚ
  proj : ℚ
deriving DecidableEq

instance : Inhabited Team := ⟨⟨none, none, 0, 0⟩⟩

/-- A raw candidate entry as the input validators can see it, before any
guarantee that the score is a finite number. -/
structure RawTeam where
  team : Option String
  canonicalCode : Option String
  score : JSNum
deriving DecidableEq

/-- View of a well-typed entry as a raw candidate. -/
def Team.toRaw (t : Team) : RawTeam := ⟨t.team, t.canonicalCode, .fin t.score⟩

namespace ScoringAgent

/-- A team annotated by a strategy: the spread input entry plus the
`result` string and `marginVsMedian`. -/
structure RankedTeam extends Team where
  result : String
  marginVsMedian : ℚ
deriving DecidableEq

/-- `calculateStats` output. -/
structure Stats where
  median : ℚ
  highScore : ℚ
  lowScore : ℚ
  range : ℚ
  winners : Nat
  losers : Nat
  ties : Nat
  averageScore : ℚ
  standardDeviation : ℚ
deriving DecidableEq

/-- A strategy result: `{ median, teams, stats, quality }`. -/
structure CalcResult where
  median : ℚ
  teams : List RankedTeam
  stats : Stats
  quality : ℚ
deriving DecidableEq

/-- A result as returned by `calculateWithAlgorithm`: the strategy result
spread together with `algorithm`, `calculationTime` and `confidence`. -/
structure CalcFull extends CalcResult where
  algorithm : String
  calculationTime : ℚ
  confidence : ℚ
deriving DecidableEq

/-- `calculateStats(teams, median)` (the unrounded median is passed in). -/
def calculateStats (teams : List RankedTeam) (median : ℚ) : Stats :=
  let scores := teams.map fun t => t.score
  { median := median
    highScore := jsMaxList scores
    lowScore := jsMinList scores
    range := jsMaxList scores - jsMinList scores
    winners := (teams.filter fun t => t.result == "WIN").length
    losers := (teams.filter fun t => t.result == "LOSS").length
    ties := (teams.filter fun t => t.result == "TIE").length
    averageScore := listSum scores / scores.length
    standardDeviation := calculateStandardDeviation scores }

/-- The per-team annotation common to all three strategies:
`result = score > median ? WIN : score < median ? LOSS : TIE`,
`marginVsMedian = score - median` (against the unrounded median), then a
descending stable sort by score. The three strategies build this with the
same expression; it is factored here once. -/
def rankTeams (td : List Team) (median : ℚ) : List RankedTeam :=
  stableSort (fun a b => decide (b.score ≤ a.score))
    (td.map fun t =>
      { toTeam := t
        result := if median < t.score then "WIN"
                  else if t.score < median then "LOSS" else "TIE"
        marginVsMedian := t.score - median })

/-- Body of `calculateRFFLMedian` once the length check has passed:
sort scores descending, median is the average of the entries at indices 5
and 6, the returned `median` field is rounded to two decimals. -/
def rfflCore (td : List Team) : CalcResult :=
  let scores := stableSort (fun a b : ℚ => decide (b ≤ a)) (td.map fun t => t.score)
  let median := (scores.getD 5 0 + scores.getD 6 0) / 2
  let teams := rankTeams td median
  { median := round2 median
    teams := teams
    stats := calculateStats teams median
    quality := 1 }

/-- `calculateRFFLMedian(teamData)`: throws unless exactly 12 teams. -/
def calculateRFFLMedian (td : List Team) : Except String CalcResult :=
  if td.length = 12 then .ok (rfflCore td)
  else .error "RFFL median requires exactly 12 teams"

/-- `calculateStatisticalMedian(teamData)`: ascending order statistic
median (even length: mean of the two central values; odd: the central
value). Total for nonempty input; the engine only calls it with twelve
entries (the out-of-range index access JS would perform on an empty array
is not modelled). -/
def calculateStatisticalMedian (td : List Team) : CalcResult :=
  let scores := stableSort (fun a b : ℚ => decide (a ≤ b)) (td.map fun t => t.score)
  let n := scores.length
  let median :=
    if n % 2 = 0 then (scores.getD (n / 2 - 1) 0 + scores.getD (n / 2) 0) / 2
    else scores.getD (n / 2) 0
  let teams := rankTeams td median
  { median := round2 median
    teams := teams
    stats := calculateStats teams median
    quality := 95 / 100 }

/-- The scan of `calculateWeightedMedian`: walk the ascending
(score, weight) pairs accumulating weight; at the first entry where the
cumulative weight reaches the half-weight target, average with the next
score if it lands exactly on the target and an entry remains, else take
that score. If the loop never triggers the source leaves `median = 0`. -/
def weightedPick : List (ℚ × ℚ) → ℚ → ℚ → ℚ
  | [], _, _ => 0
  | (s, w) :: rest, cum, target =>
    let c := cum + w
    if target ≤ c then
      if c = target ∧ rest ≠ [] then (s + (rest.headD (0, 0)).1) / 2 else s
    else weightedPick rest c target

/-- `calculateWeightedMedian(teamData, weights)`; `none` weights default
to weight 1 per entry (the only form the engine uses). -/
def calculateWeightedMedian (td : List Team) (weights : Option (List ℚ)) : CalcResult :=
  let ws := weights.getD (td.map fun _ => 1)
  let weightedData :=
    stableSort (fun a b : (ℚ × ℚ) => decide (a.1 ≤ b.1))
      ((td.map fun t => t.score).zip ws)
  let totalWeight := listSum ws
  let median := weightedPick weightedData 0 (totalWeight / 2)
  let teams := rankTeams td median
  { median := round2 median
    teams := teams
    stats := calculateStats teams median
    quality := 9 / 10 }

end ScoringAgent

/-- A dynamically typed JS value, as far as the result validator and the
anomaly pipeline inspect their arguments: numbers (with `nan` for `NaN`),
strings, arrays, plain objects (association lists of fields), and
`undefined`. -/
inductive JSVal where
  | undefinedV
  | nan
  | num (q : ℚ)
  | str (s : String)
  | arr (xs : List JSVal)
  | obj (fields : List (String × JSVal))

/-- JS `ToNumber` restricted to the coercions the embedded call sites
perform: a plain object or array coerces to `NaN` (`none`), as do
`undefined`, `NaN` and strings (no numeric-string call site exists). -/
def JSVal.toNumQ : JSVal → Option ℚ
  | .num q => some q
  | _ => none

/-- JS truthiness. -/
def JSVal.truthy : JSVal → Bool
  | .undefinedV => false
  | .nan => false
  | .num q => decide (q ≠ 0)
  | .str s => decide (s ≠ "")
  | .arr _ => true
  | .obj _ => true

/-- First-match lookup of a field in an object's association list;
`undefined` when absent. -/
def lookupField : List (String × JSVal) → String → JSVal
  | [], _ => .undefinedV
  | (k, v) :: rest, f => if k = f then v else lookupField rest f

/-- Property access `v.f`: on an array only `length` is read by the
embedded code; on an object, field lookup (or `undefined`); on anything
else `undefined`. -/
def JSVal.getField : JSVal → String → JSVal
  | .arr xs, f => if f = "length" then .num xs.length else .undefinedV
  | .obj fs, f => lookupField fs f
  | _, _ => .undefinedV

/-- JS strict equality `v === c` against a numeric literal. -/
def JSVal.strictEqNum (v : JSVal) (c : ℚ) : Bool :=
  match v with
  | .num q => decide (q = c)
  | _ => false

/-- JS `a >= b` under numeric coercion: any `NaN` operand makes the
comparison false. -/
def jsGeVal (a b : JSVal) : Bool :=
  match a.toNumQ, b.toNumQ with
  | some x, some y => decide (y ≤ x)
  | _, _ => false

/-- JS `a <= b` under numeric coercion. -/
def jsLeVal (a b : JSVal) : Bool :=
  match a.toNumQ, b.toNumQ with
  | some x, some y => decide (x ≤ y)
  | _, _ => false

/-- Outcome of a validator: `{ isValid, errors }`. -/
structure ValidationOutcome where
  isValid : Bool
  errors : List String
deriving DecidableEq

namespace ScoringAgent

/-- The `median_range` rule body `(median) => median >= 0 && median <= 300`
applied to whatever value `validateResult` passes it. -/
def medianRangeRule (v : JSVal) : Bool :=
  jsGeVal v (.num 0) && jsLeVal v (.num 300)

/-- The `team_count` rule body `(teams) => teams && teams.length === 12`
applied to whatever value `validateResult` passes it. -/
def teamCountRule (v : JSVal) : Bool :=
  v.truthy && (v.getField "length").strictEqNum 12

/-- `validateScoreConsistency(teams)`: map to scores, require the
standard deviation strictly between 5 and 50. On a non-array argument
`teams.map` throws a `TypeError`; with any non-numeric score the `NaN`
contaminates the sums and both comparisons are false. -/
def validateScoreConsistency (v : JSVal) : Except String Bool :=
  match v with
  | .arr xs =>
    if (xs.map fun t => (t.getField "score").toNumQ).all Option.isSome then
      let scores := xs.filterMap fun t => (t.getField "score").toNumQ
      let stdDev := calculateStandardDeviation scores
      .ok (decide (5 < stdDev) && decide (stdDev < 50))
    else .ok false
  | _ => .error "teams.map is not a function"

/-- `validateCalculationAccuracy(result)`: recompute the standard median
from `result.teams` and compare with `result.median` within `0.01`. -/
def validateCalculationAccuracy (v : JSVal) : Except String Bool :=
  let teams := v.getField "teams"
  if !(teams.truthy && (teams.getField "length").strictEqNum 12) then .ok false
  else
    match teams with
    | .arr xs =>
      if (xs.map fun t => (t.getField "score").toNumQ).all Option.isSome then
        let scores := stableSort (fun a b : ℚ => decide (b ≤ a))
          (xs.filterMap fun t => (t.getField "score").toNumQ)
        let expectedMedian := (scores.getD 5 0 + scores.getD 6 0) / 2
        match (v.getField "median").toNumQ with
        | some m => .ok (decide (jsAbs (expectedMedian - m) < 1/100))
        | none => .ok false
      else .ok false
    | _ => .error "teams.map is not a function"

/-- `validateResult(result)`: apply the four registered rules, in Map
insertion order, each to the whole `result` argument, collecting an error
per failed rule and turning a thrown rule into a
`Validation error - ...` entry. -/
def validateResult (v : JSVal) : ValidationOutcome :=
  let e1 := if medianRangeRule v then []
            else ["median_range: Median must be between 0 and 300"]
  let e2 := if teamCountRule v then []
            else ["team_count: Must have exactly 12 teams"]
  let e3 := match validateScoreConsistency v with
    | .ok true => []
    | .ok false => ["score_consistency: Scores must be consistent and realistic"]
    | .error m => ["score_consistency: Validation error - " ++ m]
  let e4 := match validateCalculationAccuracy v with
    | .ok true => []
    | .ok false => ["calculation_accuracy: Median calculation must be mathematically accurate"]
    | .error m => ["calculation_accuracy: Validation error - " ++ m]
  let errors := e1 ++ e2 ++ e3 ++ e4
  ⟨errors.isEmpty, errors⟩

/-- The per-entry error messages of `preValidateData` for the entry at a
given index: a non-number score, then an out-of-range score. -/
def preTeamErrors (p : Nat × RawTeam) : List String :=
  (if p.2.score.isNumberType then []
   else ["Team " ++ toString p.1 ++ ": Invalid score"]) ++
  (if p.2.score.ltNum 0 || p.2.score.gtNum 300 then
    ["Team " ++ toString p.1 ++ ": Score out of range"] else [])

/-- `preValidateData(teamData)`: exactly 12 entries, each score of number
type (`NaN` and the infinities pass `typeof`), and `score < 0 || score > 300`
rejected (comparisons with `NaN` are false, so `NaN` slips through).
Identifiers are not examined. The candidate is always an array here, so
the `Array.isArray` branch is not modelled. -/
def preValidateData (raw : List RawTeam) : ValidationOutcome :=
  let countErrs := if raw.length = 12 then [] else ["Must have exactly 12 teams"]
  let teamErrs := concatMap preTeamErrors (withIdx 0 raw)
  let errors := countErrs ++ teamErrs
  ⟨errors.isEmpty, errors⟩

/-- `preValidateData` as the engine invokes it, on the well-typed team
array the strategies also receive. -/
def preValidateDataQ (td : List Team) : ValidationOutcome :=
  preValidateData (td.map Team.toRaw)

/-- Encoding of an annotated team as the JS object the validator sees. -/
def teamToJS (t : RankedTeam) : JSVal :=
  .obj [("team", match t.team with | some s => .str s | none => .undefinedV),
        ("canonicalCode", match t.canonicalCode with | some s => .str s | none => .undefinedV),
        ("score", .num t.score),
        ("proj", .num t.proj),
        ("result", .str t.result),
        ("marginVsMedian", .num t.marginVsMedian)]

/-- Encoding of the stats object. -/
def statsToJS (s : Stats) : JSVal :=
  .obj [("median", .num s.median), ("highScore", .num s.highScore),
        ("lowScore", .num s.lowScore), ("range", .num s.range),
        ("winners", .num s.winners), ("losers", .num s.losers),
        ("ties", .num s.ties), ("averageScore", .num s.averageScore),
        ("standardDeviation", .num s.standardDeviation)]

/-- Encoding of a full strategy result as the JS object
`validateResult` receives. -/
def resultToJS (r : CalcFull) : JSVal :=
  .obj [("median", .num r.median),
        ("teams", .arr (r.teams.map teamToJS)),
        ("stats", statsToJS r.stats),
        ("quality", .num r.quality),
        ("algorithm", .str r.algorithm),
        ("calculationTime", .num r.calculationTime),
        ("confidence", .num r.confidence)]

/-- The registered `accuracy` of each algorithm (its initial value; the
feedback loop that would mutate it is never fed in the source). -/
def algorithmAccuracy (name : String) : ℚ :=
  if name = "rffl_standard" then 1
  else if name = "statistical_median" then 95 / 100
  else if name = "weighted_median" then 9 / 10
  else 0

/-- `calculateWithAlgorithm(algorithmName, teamData)`: dispatch on the
registry key, annotate the result with the algorithm name, the elapsed
wall clock `t1 - t0` (the two `performance.now()` reads are passed in)
and the algorithm's accuracy as `confidence`. -/
def algBase (name : String) (td : List Team) : Except String CalcResult :=
  if name = "rffl_standard" then calculateRFFLMedian td
  else if name = "statistical_median" then .ok (calculateStatisticalMedian td)
  else if name = "weighted_median" then .ok (calculateWeightedMedian td none)
  else .error ("Unknown algorithm: " ++ name)

def calculateWithAlgorithm (name : String) (td : List Team) (t0 t1 : ℚ) :
    Except String CalcFull :=
  (algBase name td).map fun r =>
    { toCalcResult := r
      algorithm := name
      calculationTime := t1 - t0
      confidence := algorithmAccuracy name }

/-- `calculateWithFallback`: walk the fixed list
`["statistical_median", "weighted_median"]`; a thrown strategy is caught
and skipped, a result failing `validateResult` is skipped; if none
validates, throw `All calculation algorithms failed`. The returned list
records the algorithms attempted, in order. -/
def fallbackLoop (td : List Team) (t0 t1 : ℚ) :
    List String → List String × Except String CalcFull
  | [] => ([], .error "All calculation algorithms failed")
  | name :: rest =>
    match calculateWithAlgorithm name td t0 t1 with
    | .error _ =>
      let next := fallbackLoop td t0 t1 rest
      (name :: next.1, next.2)
    | .ok r =>
      if (validateResult (resultToJS r)).isValid then ([name], .ok r)
      else
        let next := fallbackLoop td t0 t1 rest
        (name :: next.1, next.2)

/-- `intelligentCalculator.calculate(teamData)`: pre-validate (throwing
`Pre-validation failed: ...` with the joined errors and invoking no
strategy on failure), run the primary `rffl_standard`, validate its
result, and on validation failure run the fallback chain. On the success
path the anomaly check and history write do not alter the returned
result, so only the returned value is modelled here; the first component
lists the strategies attempted, in order. -/
def intelligentCalculate (td : List Team) (t0 t1 : ℚ) :
    List String × Except String CalcFull :=
  let pre := preValidateDataQ td
  if pre.isValid then
    match calculateWithAlgorithm "rffl_standard" td t0 t1 with
    | .error e => (["rffl_standard"], .error e)
    | .ok r =>
      if (validateResult (resultToJS r)).isValid then (["rffl_standard"], .ok r)
      else
        let fb := fallbackLoop td t0 t1 ["statistical_median", "weighted_median"]
        ("rffl_standard" :: fb.1, fb.2)
  else ([], .error ("Pre-validation failed: " ++ String.intercalate ", " pre.errors))

end ScoringAgent

/-- A record kept in the rolling `medianHistory` store: the compressed
projection of a result that `storeCalculationHistory` appends. -/
structure HistoryRecord where
  timestamp : ℚ
  median : ℚ
  algorithm : String
  calculationTime : ℚ
  confidence : ℚ
  quality : ℚ
deriving DecidableEq

namespace ScoringAgent

/-- One anomaly finding; the free-form detail fields of the source
(`index`, `score`, `zScore`, ...) are not read by any claim and are
omitted, keeping the discriminating `type` tag and the `severity`. -/
structure AnomalyFinding where
  type : String
  severity : ℚ
deriving DecidableEq

/-- A single detector's report. -/
structure AnomalyReport where
  hasAnomalies : Bool
  anomalies : List AnomalyFinding
  severity : ℚ
deriving DecidableEq

/-- The report with no findings. -/
def emptyReport : AnomalyReport := ⟨false, [], 0⟩

/-- `severity: anomalies.length > 0 ? Math.max(...severities) : 0`. -/
def severityOf (anomalies : List AnomalyFinding) : ℚ :=
  jsMaxList (anomalies.map fun a => a.severity)

/-- `detectStatisticalAnomalies(scores)`: z-score of each entry against
the list's own mean and standard deviation, flagging `|z| > 2.5` with
severity `min(|z|/3, 1)`. A non-array argument throws on `.reduce`; a
non-numeric element or a zero variance makes every z-score `NaN`
(comparison false, no findings). `Math.sqrt` is `jsSqrt` here: at every
input a claim evaluates this on, the flagging and capping decisions agree
with the exact square root. -/
def detectStatisticalAnomalies (v : JSVal) : Except String AnomalyReport :=
  match v with
  | .arr xs =>
    if (xs.map JSVal.toNumQ).all Option.isSome then
      let scores := xs.filterMap JSVal.toNumQ
      if varianceQ scores = 0 then .ok emptyReport
      else
        let mean := meanQ scores
        let stdDev := calculateStandardDeviation scores
        let anomalies := scores.filterMap fun s =>
          let zScore := jsAbs ((s - mean) / stdDev)
          if 5/2 < zScore then
            some ⟨"statistical_outlier", jsMin2 (zScore / 3) 1⟩
          else none
        .ok ⟨!anomalies.isEmpty, anomalies, severityOf anomalies⟩
    else .ok emptyReport
  | _ => .error "scores.reduce is not a function"

/-- `detectHistoricalAnomalies(median, scores)` (the second parameter is
unused by the body): with fewer than five history records, no anomalies;
otherwise the z-score of the incoming median against the historical
medians, flagged at `|z| > 2.0`. A non-numeric `median` (the pipeline
passes the whole data object) coerces to `NaN`, so nothing is flagged;
a zero historical variance gives an infinite z-score for any deviating
median (flagged with capped severity 1) and `NaN` for an equal one. -/
def detectHistoricalAnomalies (median : JSVal) (history : List HistoryRecord) :
    AnomalyReport :=
  let historicalMedians := history.map fun h => h.median
  if historicalMedians.length < 5 then emptyReport
  else
    match median.toNumQ with
    | none => emptyReport
    | some m =>
      let historicalMean := meanQ historicalMedians
      if varianceQ historicalMedians = 0 then
        if m = historicalMean then emptyReport
        else ⟨true, [⟨"historical_median_anomaly", 1⟩], 1⟩
      else
        let z := jsAbs ((m - historicalMean) / calculateStandardDeviation historicalMedians)
        let anomalies : List AnomalyFinding :=
          if 2 < z then [⟨"historical_median_anomaly", jsMin2 (z / 3) 1⟩] else []
        ⟨!anomalies.isEmpty, anomalies, severityOf anomalies⟩

/-- `detectPatternAnomalies(data)`: sort `data.teams` scores ascending,
compute consecutive gaps, flag when some gap exceeds three times the
average gap, severity `min(count/3, 1)`. `data.teams.map` throws when
`teams` is not an array; with fewer than two scores the average gap is
`NaN` in JS and nothing is flagged; a non-numeric score likewise
contaminates every comparison. -/
def detectPatternAnomalies (v : JSVal) : Except String AnomalyReport :=
  match v.getField "teams" with
  | .arr xs =>
    if (xs.map fun t => (t.getField "score").toNumQ).all Option.isSome then
      let scores := stableSort (fun a b : ℚ => decide (a ≤ b))
        (xs.filterMap fun t => (t.getField "score").toNumQ)
      let gaps := (scores.zip scores.tail).map fun p => p.2 - p.1
      if gaps.isEmpty then .ok emptyReport
      else
        let averageGap := listSum gaps / gaps.length
        let largeGaps := gaps.filter fun g => decide (averageGap * 3 < g)
        let anomalies : List AnomalyFinding :=
          if largeGaps.isEmpty then []
          else [⟨"score_clustering", jsMin2 ((largeGaps.length : ℚ) / 3) 1⟩]
        .ok ⟨!anomalies.isEmpty, anomalies, severityOf anomalies⟩
    else .ok emptyReport
  | _ => .error "data.teams.map is not a function"

/-- `detectProjectionAnomalies(teams)`: per entry, relative variance of
`score` against `proj`, flagged above 50 percent with severity
`min(variance, 1)`. The pipeline passes the whole data object, whose
`.forEach` throws. A zero projection gives an infinite relative variance
for a nonzero score (flagged, capped at 1) and `NaN` for a zero one. -/
def detectProjectionAnomalies (v : JSVal) : Except String AnomalyReport :=
  match v with
  | .arr xs =>
    let anomalies := xs.filterMap fun t =>
      match (t.getField "score").toNumQ, (t.getField "proj").toNumQ with
      | some s, some p =>
        if p = 0 then
          if s ≠ 0 then some ⟨"projection_variance", 1⟩ else none
        else
          let projectionVariance := jsAbs (s - p) / p
          if 1/2 < projectionVariance then
            some ⟨"projection_variance", jsMin2 projectionVariance 1⟩
          else none
      | _, _ => none
    .ok ⟨!anomalies.isEmpty, anomalies, severityOf anomalies⟩
  | _ => .error "teams.forEach is not a function"

/-- One entry of the pipeline's collected results: the detector name,
its report, and the detector's static confidence. -/
structure DetectorResult where
  detector : String
  rep : AnomalyReport
  confidence : ℚ
deriving DecidableEq

/-- The aggregated verdict over all detector reports. -/
structure AggregatedVerdict where
  hasAnomalies : Bool
  anomalies : List AnomalyFinding
  severity : ℚ
  detectorResults : List DetectorResult
deriving DecidableEq

/-- `aggregateAnomalyResults(results)`: flatten all findings, take the
maximum severity (with an explicit 0 in the spread). -/
def aggregateAnomalyResults (results : List DetectorResult) : AggregatedVerdict :=
  let allAnomalies := concatMap (fun r => r.rep.anomalies) results
  let maxSeverity := (results.map fun r => r.rep.severity).foldl jsMax2 0
  ⟨!allAnomalies.isEmpty, allAnomalies, maxSeverity, results⟩

/-- `anomalySystem.detectAnomalies(data)`: run the four registered
detectors in Map insertion order, each invoked on the whole `data`
argument; a detector that throws is caught and contributes nothing. -/
def detectAnomalies (data : JSVal) (history : List HistoryRecord) :
    AggregatedVerdict :=
  let results :=
    (match detectStatisticalAnomalies data with
      | .ok rep => [⟨"statistical", rep, 9/10⟩]
      | .error _ => ([] : List DetectorResult)) ++
    [⟨"historical", detectHistoricalAnomalies data history, 85/100⟩] ++
    (match detectPatternAnomalies data with
      | .ok rep => [⟨"pattern", rep, 8/10⟩]
      | .error _ => ([] : List DetectorResult)) ++
    (match detectProjectionAnomalies data with
      | .ok rep => [⟨"projection", rep, 75/100⟩]
      | .error _ => ([] : List DetectorResult))
  aggregateAnomalyResults results

/-- The `data` object `performAnomalyDetection` hands to every detector:
`{ median, teams, scores }`. -/
def dataToJS (r : CalcFull) : JSVal :=
  .obj [("median", .num r.median),
        ("teams", .arr (r.teams.map teamToJS)),
        ("scores", .arr (r.teams.map fun t => JSVal.num t.score))]

/-- `performAnomalyDetection(result)`. -/
def performAnomalyDetection (r : CalcFull) (history : List HistoryRecord) :
    AggregatedVerdict :=
  detectAnomalies (dataToJS r) history

/-- The compressed projection `storeCalculationHistory` appends
(`Date.now()` passed in as `now`). -/
def toHistoryRecord (r : CalcFull) (now : ℚ) : HistoryRecord :=
  ⟨now, r.median, r.algorithm, r.calculationTime, r.confidence, r.quality⟩

/-- `storeCalculationHistory`: push, then `shift()` the oldest record
when the store exceeds 100 entries. -/
def storeCalculationHistory (history : List HistoryRecord)
    (rec : HistoryRecord) : List HistoryRecord :=
  let h := history ++ [rec]
  if 100 < h.length then h.tail else h

end ScoringAgent

namespace MedianCalculator

/-- A team in a `MedianCalculator` result: the spread input entry plus
rank, margin, result and the three position flags. -/
structure RankedTeam extends Team where
  rank : Nat
  marginVsMedian : ℚ
  result : String
  isAboveMedian : Bool
  isBelowMedian : Bool
  isAtMedian : Bool
deriving DecidableEq

/-- `calculateMedianStats` output. -/
structure Stats where
  wins : Nat
  losses : Nat
  ties : Nat
  highScore : ℚ
  lowScore : ℚ
  averageScore : ℚ
  avgMarginVsMedian : ℚ
  medianAsPercentOfAverage : ℚ
  scoreRange : ℚ
deriving DecidableEq

/-- A `calculateMedian` result (`calculatedAt` is the wall-clock ISO
string, passed in). -/
structure MCResult where
  median : ℚ
  sixthPlaceScore : ℚ
  seventhPlaceScore : ℚ
  teams : List RankedTeam
  stats : Stats
  calculatedAt : String
deriving DecidableEq

/-- `roundScore` with the configured precision 2. -/
def roundScore (x : ℚ) : ℚ := round2 x

/-- `calculateMedianStats(results, median)`. -/
def calculateMedianStats (results : List RankedTeam) (median : ℚ) : Stats :=
  let scores := results.map fun t => t.score
  let highScore := jsMaxList scores
  let lowScore := jsMinList scores
  let averageScore := roundScore (listSum scores / scores.length)
  let margins := results.map fun t => jsAbs t.marginVsMedian
  { wins := (results.filter fun t => t.result == "WIN").length
    losses := (results.filter fun t => t.result == "LOSS").length
    ties := (results.filter fun t => t.result == "TIE").length
    highScore := highScore
    lowScore := lowScore
    averageScore := averageScore
    avgMarginVsMedian := roundScore (listSum margins / margins.length)
    medianAsPercentOfAverage := roundScore ((median / averageScore) * 100)
    scoreRange := roundScore (highScore - lowScore) }

/-- The per-team annotation of `calculateMedian` for the (0-indexed)
sorted entry `p`: rank, rounded margin against the rounded median, the
WIN/LOSS/TIE outcome decided by the margin's sign and the three position
flags. -/
def mcRank (median : ℚ) (p : Nat × Team) : RankedTeam :=
  let marginVsMedian := roundScore (p.2.score - median)
  { toTeam := p.2
    rank := p.1 + 1
    marginVsMedian := marginVsMedian
    result := if 0 < marginVsMedian then "WIN"
              else if marginVsMedian < 0 then "LOSS" else "TIE"
    isAboveMedian := decide (0 < marginVsMedian)
    isBelowMedian := decide (marginVsMedian < 0)
    isAtMedian := decide (marginVsMedian = 0) }

/-- Body of `calculateMedian` once the count check has passed: stable
descending sort, median = rounded average of the entries at indices 5 and
6, and per-team margin (rounded difference against the rounded median)
deciding WIN/LOSS/TIE. -/
def mcCore (teamScores : List Team) (now : String) : MCResult :=
  let sortedTeams := stableSort (fun a b : Team => decide (b.score ≤ a.score)) teamScores
  let sixthPlace := sortedTeams.getD 5 default
  let seventhPlace := sortedTeams.getD 6 default
  let median := roundScore ((sixthPlace.score + seventhPlace.score) / 2)
  let results := (withIdx 0 sortedTeams).map (mcRank median)
  { median := median
    sixthPlaceScore := sixthPlace.score
    seventhPlaceScore := seventhPlace.score
    teams := results
    stats := calculateMedianStats results median
    calculatedAt := now }

/-- `calculateMedian(teamScores)`: throws unless exactly 12 teams. -/
def calculateMedian (teamScores : List Team) (now : String) :
    Except String MCResult :=
  if teamScores.length = 12 then .ok (mcCore teamScores now)
  else .error ("Expected exactly 12 teams, got " ++ toString teamScores.length)

/-- The first error `validateTeamData`'s `forEach` would throw, walking
the entries in order: a non-number or `NaN` score, then a missing
identifier (both `team` and `canonicalCode` falsy). The interpolated
score value of the source message is not reproduced. -/
def firstTeamError : List (Nat × RawTeam) → Option String
  | [] => none
  | (i, t) :: rest =>
    if !t.score.isNumberType || t.score.isNaNNum then
      some ("Invalid score for team at index " ++ toString i)
    else if t.team.isNone && t.canonicalCode.isNone then
      some ("Missing team identifier at index " ++ toString i)
    else firstTeamError rest

/-- `validateTeamData(teamData)`: count check, then the per-entry checks;
returns `true` when nothing throws. The candidate is always an array
here, so the `Array.isArray` branch is not modelled. No range check and
no duplicate-identifier check is performed. -/
def validateTeamData (teamData : List RawTeam) : Except String Bool :=
  if teamData.length ≠ 12 then
    .error ("Expected 12 teams, got " ++ toString teamData.length)
  else
    match firstTeamError (withIdx 0 teamData) with
    | some m => .error m
    | none => .ok true

end MedianCalculator

/-! ### Concrete inputs used by the scenario claims and witnesses -/

/-- Short constructor for a well-typed entry with identifier, score and
projection. -/
def mkTeam (id : String) (s p : ℚ) : Team := ⟨some id, none, s, p⟩

/-- Scenario A: the twelve scores of the specification, already in
descending order. -/
def tdA : List Team :=
  [mkTeam "T01" 124.20 124.20, mkTeam "T02" 117.50 117.50,
   mkTeam "T03" 111.50 111.50, mkTeam "T04" 107.30 107.30,
   mkTeam "T05" 101.50 101.50, mkTeam "T06" 97.40 97.40,
   mkTeam "T07" 94.30 94.30, mkTeam "T08" 91.60 91.60,
   mkTeam "T09" 87.20 87.20, mkTeam "T10" 83.30 83.30,
   mkTeam "T11" 78.70 78.70, mkTeam "T12" 74.42 74.42]

/-- An 11-entry candidate (Scenario C). -/
def td11 : List Team := tdA.tail

/-- Twelve identical in-range scores (Scenario D). -/
def identTeams100 : List Team :=
  [mkTeam "T01" 100 100, mkTeam "T02" 100 100, mkTeam "T03" 100 100,
   mkTeam "T04" 100 100, mkTeam "T05" 100 100, mkTeam "T06" 100 100,
   mkTeam "T07" 100 100, mkTeam "T08" 100 100, mkTeam "T09" 100 100,
   mkTeam "T10" 100 100, mkTeam "T11" 100 100, mkTeam "T12" 100 100]

/-- The maximal-outlier configuration for twelve entries: eleven scores
of 90 and one of 135, whose z-score against the set's own mean and
(population) standard deviation is the largest attainable for a set of
twelve, the square root of 11. -/
def outlierTeams : List Team :=
  [mkTeam "T01" 90 90, mkTeam "T02" 90 90, mkTeam "T03" 90 90,
   mkTeam "T04" 90 90, mkTeam "T05" 90 90, mkTeam "T06" 90 90,
   mkTeam "T07" 90 90, mkTeam "T08" 90 90, mkTeam "T09" 90 90,
   mkTeam "T10" 90 90, mkTeam "T11" 90 90, mkTeam "T12" 135 135]

/-- Twelve raw entries all carrying the same identifier (duplicated
within the set), every score a plain in-range number. -/
def dupRaw : List RawTeam :=
  [⟨some "T1", none, .fin 100⟩, ⟨some "T1", none, .fin 101⟩,
   ⟨some "T1", none, .fin 102⟩, ⟨some "T1", none, .fin 103⟩,
   ⟨some "T1", none, .fin 104⟩, ⟨some "T1", none, .fin 105⟩,
   ⟨some "T1", none, .fin 106⟩, ⟨some "T1", none, .fin 107⟩,
   ⟨some "T1", none, .fin 108⟩, ⟨some "T1", none, .fin 109⟩,
   ⟨some "T1", none, .fin 110⟩, ⟨some "T1", none, .fin 111⟩]

/-- Twelve raw entries with distinct identifiers whose first score is
`NaN`. -/
def nanRaw : List RawTeam :=
  [⟨some "T01", none, .nan⟩, ⟨some "T02", none, .fin 100⟩,
   ⟨some "T03", none, .fin 100⟩, ⟨some "T04", none, .fin 100⟩,
   ⟨some "T05", none, .fin 100⟩, ⟨some "T06", none, .fin 100⟩,
   ⟨some "T07", none, .fin 100⟩, ⟨some "T08", none, .fin 100⟩,
   ⟨some "T09", none, .fin 100⟩, ⟨some "T10", none, .fin 100⟩,
   ⟨some "T11", none, .fin 100⟩, ⟨some "T12", none, .fin 100⟩]

/-- A sample history record. -/
def histRec0 : HistoryRecord := ⟨0, 95, "rffl_standard", 1, 1, 1⟩

namespace ScoringAgent

/-- The value `calculateWithAlgorithm "rffl_standard"` returns on a
twelve-entry input, with the two clock reads `t0`, `t1`. -/
def stdFull (td : List Team) (t0 t1 : ℚ) : CalcFull :=
  { toCalcResult := rfflCore td
    algorithm := "rffl_standard"
    calculationTime := t1 - t0
    confidence := 1 }

/-- A result with its wall-clock annotation erased, to state which
fields are clock-independent. -/
def CalcFull.eraseTime (r : CalcFull) : CalcFull := { r with calculationTime := 0 }

end ScoringAgent

namespace MedianCalculator

/-- A result with its wall-clock annotation erased. -/
def MCResult.eraseCalculatedAt (r : MCResult) : MCResult := { r with calculatedAt := "" }

end MedianCalculator

/-- A placeholder ranked team used only as the default of `headD`. -/
def mcDummy : MedianCalculator.RankedTeam :=
  ⟨default, 0, 0, "", false, false, false⟩

/-- A placeholder ranked team used only as the default of `headD`. -/
def saDummy : ScoringAgent.RankedTeam := ⟨default, "", 0⟩


/-! ### Helper lemmas -/

theorem mem_stableInsert {le : α → α → Bool} {a b : α} {l : List α} :
    b ∈ stableInsert le a l ↔ b = a ∨ b ∈ l := by
  induction l with
  | nil => simp [stableInsert]
  | cons c t ih =>
    by_cases h : le a c = true
    · simp [stableInsert, h]
    · simp only [stableInsert, h, Bool.false_eq_true, if_false, List.mem_cons, ih]
      tauto

theorem mem_stableSort {le : α → α → Bool} {b : α} {l : List α} :
    b ∈ stableSort le l ↔ b ∈ l := by
  induction l with
  | nil => simp [stableSort]
  | cons a t ih => simp [stableSort, mem_stableInsert, ih]

theorem length_stableInsert (le : α → α → Bool) (a : α) (l : List α) :
    (stableInsert le a l).length = l.length + 1 := by
  induction l with
  | nil => rfl
  | cons c t ih =>
    by_cases h : le a c = true
    · simp [stableInsert, h]
    · simp [stableInsert, h, ih]

theorem length_stableSort (le : α → α → Bool) (l : List α) :
    (stableSort le l).length = l.length := by
  induction l with
  | nil => rfl
  | cons a t ih => simp [stableSort, length_stableInsert, ih]

theorem length_withIdx (n : Nat) (l : List α) :
    (withIdx n l).length = l.length := by
  induction l generalizing n with
  | nil => rfl
  | cons a t ih => simp [withIdx, ih]

theorem mem_withIdx_snd {p : Nat × α} {n : Nat} {l : List α}
    (h : p ∈ withIdx n l) : p.2 ∈ l := by
  induction l generalizing n with
  | nil => cases h
  | cons a t ih =>
    rw [withIdx] at h
    cases h with
    | head => exact List.mem_cons_self _ _
    | tail _ h2 => exact List.mem_cons_of_mem _ (ih h2)

namespace ScoringAgent

/-- On every encoded strategy result the `median_range` rule fails: the
whole result object coerces to `NaN` in the comparisons. -/
theorem medianRangeRule_resultToJS (r : CalcFull) :
    medianRangeRule (resultToJS r) = false := rfl

/-- On every encoded strategy result the `team_count` rule fails: the
object has no `length` property, and `undefined === 12` is false. -/
theorem teamCountRule_resultToJS (r : CalcFull) :
    teamCountRule (resultToJS r) = false := rfl

/-- On every encoded strategy result the `score_consistency` rule throws:
the result object has no `.map`. -/
theorem validateScoreConsistency_resultToJS (r : CalcFull) :
    validateScoreConsistency (resultToJS r) =
      .error "teams.map is not a function" := rfl

/-- `validateResult` rejects every encoded strategy result. -/
theorem validateResult_resultToJS_isValid (r : CalcFull) :
    (validateResult (resultToJS r)).isValid = false := rfl

theorem validateResult_mem_median_range (r : CalcFull) :
    "median_range: Median must be between 0 and 300" ∈
      (validateResult (resultToJS r)).errors :=
  List.mem_cons_self _ _

theorem validateResult_mem_team_count (r : CalcFull) :
    "team_count: Must have exactly 12 teams" ∈
      (validateResult (resultToJS r)).errors :=
  List.mem_cons_of_mem _ (List.mem_cons_self _ _)

theorem validateResult_mem_score_consistency (r : CalcFull) :
    "score_consistency: Validation error - teams.map is not a function" ∈
      (validateResult (resultToJS r)).errors :=
  List.mem_cons_of_mem _ (List.mem_cons_of_mem _ (List.mem_cons_self _ _))

end ScoringAgent

theorem concatMap_eq_nil {f : α → List β} {l : List α} :
    concatMap f l = [] ↔ ∀ a ∈ l, f a = [] := by
  induction l with
  | nil => simp [concatMap]
  | cons a t ih => simp [concatMap, ih]

namespace ScoringAgent

theorem preTeamErrors_eq_nil {p : Nat × RawTeam} :
    preTeamErrors p = [] ↔
      (p.2.score.isNumberType = true ∧ p.2.score.ltNum 0 = false ∧
        p.2.score.gtNum 300 = false) := by
  unfold preTeamErrors
  by_cases h1 : p.2.score.isNumberType = true <;>
    by_cases h2 : p.2.score.ltNum 0 = true <;>
      by_cases h3 : p.2.score.gtNum 300 = true <;>
        simp [h1, h2, h3]

theorem forall_withIdx {Q : α → Prop} {l : List α} (n : Nat) :
    (∀ p ∈ withIdx n l, Q p.2) ↔ ∀ a ∈ l, Q a := by
  induction l generalizing n with
  | nil => simp [withIdx]
  | cons a t ih =>
    simp only [withIdx, List.mem_cons, forall_eq_or_imp]
    rw [ih]

/-- Characterization of `preValidateData`: it accepts exactly the
12-entry candidates whose scores are all of number type and fail both
range comparisons. -/
theorem preValidateData_isValid_iff (raw : List RawTeam) :
    (preValidateData raw).isValid = true ↔
      (raw.length = 12 ∧ ∀ t ∈ raw,
        t.score.isNumberType = true ∧ t.score.ltNum 0 = false ∧
          t.score.gtNum 300 = false) := by
  unfold preValidateData
  simp only [List.isEmpty_iff, List.append_eq_nil]
  rw [concatMap_eq_nil]
  simp only [preTeamErrors_eq_nil]
  rw [forall_withIdx
    (Q := fun b : RawTeam => b.score.isNumberType = true ∧
      b.score.ltNum 0 = false ∧ b.score.gtNum 300 = false) 0]
  by_cases hl : raw.length = 12 <;> simp [hl]

theorem preValidateDataQ_length {td : List Team}
    (h : (preValidateDataQ td).isValid = true) : td.length = 12 := by
  unfold preValidateDataQ at h
  have := (preValidateData_isValid_iff (td.map Team.toRaw)).1 h
  simpa using this.1

/-- With pre-validation passing, the engine runs all three strategies in
the fixed order and, every result failing the (misapplied) result
validation, terminates with the `All calculation algorithms failed`
error. -/
theorem intelligentCalculate_always_fails (td : List Team) (t0 t1 : ℚ)
    (h : (preValidateDataQ td).isValid = true) :
    intelligentCalculate td t0 t1 =
      (["rffl_standard", "statistical_median", "weighted_median"],
        Except.error "All calculation algorithms failed") := by
  have h12 : td.length = 12 := preValidateDataQ_length h
  unfold intelligentCalculate
  simp only [h, if_true]
  simp [calculateWithAlgorithm, algBase, calculateRFFLMedian, h12, fallbackLoop,
    Except.map, validateResult_resultToJS_isValid]

end ScoringAgent

namespace ScoringAgent

/-- Every entry a `ScoringAgent` strategy ranks satisfies the WIN/LOSS/TIE
trichotomy against its own stored margin. -/
theorem rankTeams_partition {td : List Team} {median : ℚ} {e : RankedTeam}
    (he : e ∈ rankTeams td median) :
    (e.result = "WIN" ↔ 0 < e.marginVsMedian) ∧
    (e.result = "LOSS" ↔ e.marginVsMedian < 0) ∧
    (e.result = "TIE" ↔ e.marginVsMedian = 0) := by
  unfold rankTeams at he
  rw [mem_stableSort] at he
  obtain ⟨t, ht, rfl⟩ := List.mem_map.1 he
  rcases lt_trichotomy t.score median with hlt | heq | hgt
  · have h1 : ¬ median < t.score := not_lt.2 hlt.le
    refine ⟨?_, ?_, ?_⟩
    · simp [h1, hlt, sub_pos]
    · simp [h1, hlt, sub_neg]
    · simp [h1, hlt, sub_eq_zero, ne_of_lt hlt]
  · have h1 : ¬ median < t.score := by rw [heq]; exact lt_irrefl _
    have h2 : ¬ t.score < median := by rw [heq]; exact lt_irrefl _
    refine ⟨?_, ?_, ?_⟩
    · simp [h1, h2, sub_pos, heq]
    · simp [h1, h2, sub_neg, heq]
    · simp [h1, h2, sub_eq_zero, heq]
  · refine ⟨?_, ?_, ?_⟩
    · simp [hgt, sub_pos]
    · simp [hgt, sub_neg, not_lt.2 hgt.le]
    · simp [hgt, sub_eq_zero, (ne_of_lt hgt).symm]

end ScoringAgent

namespace MedianCalculator

theorem mcRank_partition (median : ℚ) (p : Nat × Team) :
    ((mcRank median p).result = "WIN" ↔ 0 < (mcRank median p).marginVsMedian) ∧
    ((mcRank median p).result = "LOSS" ↔ (mcRank median p).marginVsMedian < 0) ∧
    ((mcRank median p).result = "TIE" ↔ (mcRank median p).marginVsMedian = 0) := by
  unfold mcRank
  simp only
  rcases lt_trichotomy 0 (roundScore (p.2.score - median)) with hgt | heq | hlt
  · refine ⟨?_, ?_, ?_⟩
    · simp [hgt]
    · simp [hgt, not_lt.2 hgt.le]
    · simp [hgt, (ne_of_lt hgt).symm]
  · have h1 : ¬ (0 : ℚ) < roundScore (p.2.score - median) := by rw [← heq]; exact lt_irrefl _
    have h2 : ¬ roundScore (p.2.score - median) < 0 := by rw [← heq]; exact lt_irrefl _
    refine ⟨?_, ?_, ?_⟩
    · simp [h1, h2, heq.symm]
    · simp [h1, h2, heq.symm]
    · simp [h1, h2, heq.symm]
  · have h1 : ¬ (0 : ℚ) < roundScore (p.2.score - median) := not_lt.2 hlt.le
    refine ⟨?_, ?_, ?_⟩
    · simp [h1, hlt, ne_of_lt hlt]
    · simp [h1, hlt]
    · simp [h1, hlt, ne_of_lt hlt]

/-- Every entry of a `MedianCalculator` result satisfies the WIN/LOSS/TIE
trichotomy against its own stored (rounded) margin. -/
theorem mcCore_partition {ts : List Team} {now : String} {e : RankedTeam}
    (he : e ∈ (mcCore ts now).teams) :
    (e.result = "WIN" ↔ 0 < e.marginVsMedian) ∧
    (e.result = "LOSS" ↔ e.marginVsMedian < 0) ∧
    (e.result = "TIE" ↔ e.marginVsMedian = 0) := by
  unfold mcCore at he
  simp only at he
  obtain ⟨p, hp, rfl⟩ := List.mem_map.1 he
  exact mcRank_partition _ p

end MedianCalculator

namespace ScoringAgent

theorem storeCalculationHistory_length_le {h : List HistoryRecord}
    {r : HistoryRecord} (hle : h.length ≤ 100) :
    (storeCalculationHistory h r).length ≤ 100 := by
  dsimp only [storeCalculationHistory]
  split
  · simpa using hle
  · next hc => simpa using not_lt.1 hc

theorem foldl_store_length_le (recs : List HistoryRecord)
    (acc : List HistoryRecord) (hacc : acc.length ≤ 100) :
    (recs.foldl storeCalculationHistory acc).length ≤ 100 := by
  induction recs generalizing acc with
  | nil => simpa using hacc
  | cons a t ih => exact ih _ (storeCalculationHistory_length_le hacc)

theorem store_at_capacity {h : List HistoryRecord} {r : HistoryRecord}
    (hcap : h.length = 100) :
    storeCalculationHistory h r = h.tail ++ [r] := by
  dsimp only [storeCalculationHistory]
  have hlt : 100 < (h ++ [r]).length := by simp [hcap]
  rw [if_pos hlt]
  cases h with
  | nil => simp at hcap
  | cons a t => simp

end ScoringAgent

theorem headD_mem {l : List α} (d : α) (h : l ≠ []) : l.headD d ∈ l := by
  cases l with
  | nil => exact absurd rfl h
  | cons a t => exact List.mem_cons_self _ _

/-- Scenario A input passes pre-validation. -/
theorem preValid_tdA : (ScoringAgent.preValidateDataQ tdA).isValid = true := by
  norm_num [ScoringAgent.preValidateDataQ, ScoringAgent.preValidateData,
    ScoringAgent.preTeamErrors, concatMap, withIdx, tdA, mkTeam, Team.toRaw,
    JSNum.isNumberType, JSNum.ltNum, JSNum.gtNum]

/-- The identical-scores input passes pre-validation. -/
theorem preValid_ident100 :
    (ScoringAgent.preValidateDataQ identTeams100).isValid = true := by
  norm_num [ScoringAgent.preValidateDataQ, ScoringAgent.preValidateData,
    ScoringAgent.preTeamErrors, concatMap, withIdx, identTeams100, mkTeam,
    Team.toRaw, JSNum.isNumberType, JSNum.ltNum, JSNum.gtNum]

/-- Claim C1: every result object produced by a calculation strategy (an
object with `median`, `teams`, `stats` and `quality` fields, not itself an
array) is rejected by `ScoringAgent.validateResult`, because the
`median_range`, `team_count` and `score_consistency` rules are applied to
the whole result object and each reports a violation; consequently, for
every input that passes pre-validation, `intelligentCalculator.calculate`
never returns a result and terminates with the error
`All calculation algorithms failed`. -/
theorem claimC1_result_validation_always_rejects
    (r : ScoringAgent.CalcFull) (td : List Team) (t0 t1 : ℚ)
    (h : (ScoringAgent.preValidateDataQ td).isValid = true) :
    (ScoringAgent.validateResult (ScoringAgent.resultToJS r)).isValid = false ∧
    "median_range: Median must be between 0 and 300" ∈
      (ScoringAgent.validateResult (ScoringAgent.resultToJS r)).errors ∧
    "team_count: Must have exactly 12 teams" ∈
      (ScoringAgent.validateResult (ScoringAgent.resultToJS r)).errors ∧
    "score_consistency: Validation error - teams.map is not a function" ∈
      (ScoringAgent.validateResult (ScoringAgent.resultToJS r)).errors ∧
    (ScoringAgent.intelligentCalculate td t0 t1).2 =
      Except.error "All calculation algorithms failed" :=
  ⟨ScoringAgent.validateResult_resultToJS_isValid r,
   ScoringAgent.validateResult_mem_median_range r,
   ScoringAgent.validateResult_mem_team_count r,
   ScoringAgent.validateResult_mem_score_consistency r,
   by rw [ScoringAgent.intelligentCalculate_always_fails td t0 t1 h]⟩

/-- Witness for C1 at the Scenario A input and the standard strategy's
result on it. -/
theorem claimC1_witness :
    (ScoringAgent.preValidateDataQ tdA).isValid = true ∧
    ((ScoringAgent.validateResult
        (ScoringAgent.resultToJS (ScoringAgent.stdFull tdA 0 0))).isValid = false ∧
      (ScoringAgent.intelligentCalculate tdA 0 0).2 =
        Except.error "All calculation algorithms failed") :=
  ⟨preValid_tdA,
   (claimC1_result_validation_always_rejects (ScoringAgent.stdFull tdA 0 0)
      tdA 0 0 preValid_tdA).1,
   (claimC1_result_validation_always_rejects (ScoringAgent.stdFull tdA 0 0)
      tdA 0 0 preValid_tdA).2.2.2.2⟩

/-- Claim C4: whenever the standard strategy's result fails result
validation, the engine attempts the statistical strategy before the
weighted strategy, never skipping or reordering, and when the last
strategy in the chain also fails validation it terminates with the
calculation-failure error rather than returning any result. -/
theorem claimC4_fallback_order (td : List Team) (t0 t1 : ℚ)
    (r : ScoringAgent.CalcFull)
    (hpre : (ScoringAgent.preValidateDataQ td).isValid = true)
    (hstd : ScoringAgent.calculateWithAlgorithm "rffl_standard" td t0 t1 = .ok r)
    (hfail : (ScoringAgent.validateResult (ScoringAgent.resultToJS r)).isValid = false) :
    (ScoringAgent.intelligentCalculate td t0 t1).1 =
      ["rffl_standard", "statistical_median", "weighted_median"] ∧
    (ScoringAgent.intelligentCalculate td t0 t1).2 =
      Except.error "All calculation algorithms failed" := by
  rw [ScoringAgent.intelligentCalculate_always_fails td t0 t1 hpre]
  exact ⟨rfl, rfl⟩

/-- Witness for C4 at the Scenario A input. -/
theorem claimC4_witness :
    ((ScoringAgent.preValidateDataQ tdA).isValid = true ∧
     ScoringAgent.calculateWithAlgorithm "rffl_standard" tdA 0 0 =
       .ok (ScoringAgent.stdFull tdA 0 0) ∧
     (ScoringAgent.validateResult
       (ScoringAgent.resultToJS (ScoringAgent.stdFull tdA 0 0))).isValid = false) ∧
    (ScoringAgent.intelligentCalculate tdA 0 0).1 =
      ["rffl_standard", "statistical_median", "weighted_median"] :=
  ⟨⟨preValid_tdA, rfl, ScoringAgent.validateResult_resultToJS_isValid _⟩,
   (claimC4_fallback_order tdA 0 0 (ScoringAgent.stdFull tdA 0 0) preValid_tdA rfl
      (ScoringAgent.validateResult_resultToJS_isValid _)).1⟩

/-- Counterexample to claim C5: on twelve identical in-range scores the
engine does not return a result with `strategyUsed = "statistical"`; it
returns no result at all, terminating with the
`All calculation algorithms failed` error. -/
theorem claimC5_counterexample :
    (ScoringAgent.intelligentCalculate identTeams100 0 0).2 =
      Except.error "All calculation algorithms failed" ∧
    ((ScoringAgent.intelligentCalculate identTeams100 0 0).2).toOption = none := by
  rw [ScoringAgent.intelligentCalculate_always_fails identTeams100 0 0 preValid_ident100]
  exact ⟨rfl, rfl⟩

/-- Amended claim C5: for every ScoreSet of twelve identical finite
in-range scores, the result validator rejects the standard strategy's
result (its rules misfire on the whole result object), the engine falls
back through the statistical and then the weighted strategy, both
likewise rejected, and the calculation terminates with the
`All calculation algorithms failed` error instead of returning a
statistical-strategy result. -/
theorem claimC5_identical_scores_all_strategies_fail
    (td : List Team) (q : ℚ) (t0 t1 : ℚ)
    (hlen : td.length = 12) (hall : ∀ t ∈ td, t.score = q)
    (h0 : 0 ≤ q) (h300 : q ≤ 300) :
    (ScoringAgent.intelligentCalculate td t0 t1).1 =
      ["rffl_standard", "statistical_median", "weighted_median"] ∧
    (ScoringAgent.intelligentCalculate td t0 t1).2 =
      Except.error "All calculation algorithms failed" := by
  have hpre : (ScoringAgent.preValidateDataQ td).isValid = true := by
    rw [ScoringAgent.preValidateDataQ, ScoringAgent.preValidateData_isValid_iff]
    refine ⟨by simpa using hlen, ?_⟩
    intro t ht
    simp only [List.mem_map] at ht
    obtain ⟨u, hu, rfl⟩ := ht
    have hs := hall u hu
    refine ⟨rfl, ?_, ?_⟩
    · simp [Team.toRaw, JSNum.ltNum, hs, not_lt.2 h0]
    · simp [Team.toRaw, JSNum.gtNum, hs, not_lt.2 h300]
  rw [ScoringAgent.intelligentCalculate_always_fails td t0 t1 hpre]
  exact ⟨rfl, rfl⟩

/-- Witness for the amended C5 at the concrete identical-scores input. -/
theorem claimC5_witness :
    (identTeams100.length = 12 ∧ (∀ t ∈ identTeams100, t.score = 100) ∧
      (0 : ℚ) ≤ 100 ∧ (100 : ℚ) ≤ 300) ∧
    (ScoringAgent.intelligentCalculate identTeams100 0 0).1 =
      ["rffl_standard", "statistical_median", "weighted_median"] :=
  ⟨⟨rfl, by simp [identTeams100, mkTeam], by norm_num, by norm_num⟩,
   (claimC5_identical_scores_all_strategies_fail identTeams100 100 0 0 rfl
      (by simp [identTeams100, mkTeam]) (by norm_num) (by norm_num)).1⟩

/-- Claim C7: a candidate whose size differs from twelve fails input
validation with the count error, and the engine terminates with the
pre-validation failure without attempting any strategy. -/
theorem claimC7_invalid_count_short_circuits (td : List Team) (t0 t1 : ℚ)
    (h : td.length ≠ 12) :
    (ScoringAgent.preValidateDataQ td).isValid = false ∧
    "Must have exactly 12 teams" ∈ (ScoringAgent.preValidateDataQ td).errors ∧
    (ScoringAgent.intelligentCalculate td t0 t1).1 = [] ∧
    (ScoringAgent.intelligentCalculate td t0 t1).2 =
      Except.error ("Pre-validation failed: " ++
        String.intercalate ", " (ScoringAgent.preValidateDataQ td).errors) := by
  have hfalse : (ScoringAgent.preValidateDataQ td).isValid = false := by
    rw [Bool.eq_false_iff]
    intro hh
    exact h (ScoringAgent.preValidateDataQ_length hh)
  have hlm : ¬ ((td.map Team.toRaw).length = 12) := by simpa using h
  refine ⟨hfalse, ?_, ?_, ?_⟩
  · simp only [ScoringAgent.preValidateDataQ, ScoringAgent.preValidateData, hlm,
      if_false, List.mem_append, List.mem_cons]
    simp
  · simp [ScoringAgent.intelligentCalculate, hfalse]
  · simp [ScoringAgent.intelligentCalculate, hfalse]

/-- Witness for C7 at the eleven-entry input. -/
theorem claimC7_witness :
    td11.length ≠ 12 ∧
    ((ScoringAgent.preValidateDataQ td11).isValid = false ∧
      (ScoringAgent.intelligentCalculate td11 0 0).1 = []) :=
  ⟨by decide,
   (claimC7_invalid_count_short_circuits td11 0 0 (by decide)).1,
   (claimC7_invalid_count_short_circuits td11 0 0 (by decide)).2.2.1⟩

/-- Claim C10: after any sequence of recordings starting from the empty
History Store the store never exceeds the capacity of 100, and a
recording at full capacity evicts exactly the oldest record (the head of
the insertion order). -/
theorem claimC10_history_capacity_fifo (recs : List HistoryRecord)
    (h : List HistoryRecord) (r : HistoryRecord) (hcap : h.length = 100) :
    (recs.foldl ScoringAgent.storeCalculationHistory []).length ≤ 100 ∧
    ScoringAgent.storeCalculationHistory h r = h.tail ++ [r] :=
  ⟨ScoringAgent.foldl_store_length_le recs [] (by simp),
   ScoringAgent.store_at_capacity hcap⟩

/-- Witness for C10 at a store holding exactly 100 records. -/
theorem claimC10_witness :
    (List.replicate 100 histRec0).length = 100 ∧
    ScoringAgent.storeCalculationHistory (List.replicate 100 histRec0) histRec0 =
      (List.replicate 100 histRec0).tail ++ [histRec0] :=
  ⟨by simp,
   (claimC10_history_capacity_fifo [histRec0] (List.replicate 100 histRec0)
      histRec0 (by simp)).2⟩

theorem rankTeams_length (td : List Team) (median : ℚ) :
    (ScoringAgent.rankTeams td median).length = td.length := by
  simp [ScoringAgent.rankTeams, length_stableSort]

theorem mcCore_teams_length (ts : List Team) (now : String) :
    (MedianCalculator.mcCore ts now).teams.length = ts.length := by
  simp [MedianCalculator.mcCore, length_withIdx, length_stableSort]

/-- Claim C3: for every ScoreSet accepted by a strategy and every entry of
the returned ranked entries, exactly one of WIN, LOSS and TIE holds, with
WIN iff the stored margin is positive, LOSS iff it is negative, and TIE
iff it is zero exactly (in `MedianCalculator.calculateMedian` the margin
is the rounded difference between the entry's score and the rounded
median; in the `ScoringAgent` strategies it is the difference against the
strategy's unrounded median). -/
theorem claimC3_outcome_partition :
    (∀ (ts : List Team) (now : String) (res : MedianCalculator.MCResult)
        (e : MedianCalculator.RankedTeam),
      MedianCalculator.calculateMedian ts now = .ok res → e ∈ res.teams →
        ((e.result = "WIN" ∨ e.result = "LOSS" ∨ e.result = "TIE") ∧
         (e.result = "WIN" ↔ 0 < e.marginVsMedian) ∧
         (e.result = "LOSS" ↔ e.marginVsMedian < 0) ∧
         (e.result = "TIE" ↔ e.marginVsMedian = 0))) ∧
    (∀ (td : List Team) (median : ℚ) (e : ScoringAgent.RankedTeam),
      e ∈ ScoringAgent.rankTeams td median →
        ((e.result = "WIN" ∨ e.result = "LOSS" ∨ e.result = "TIE") ∧
         (e.result = "WIN" ↔ 0 < e.marginVsMedian) ∧
         (e.result = "LOSS" ↔ e.marginVsMedian < 0) ∧
         (e.result = "TIE" ↔ e.marginVsMedian = 0))) := by
  constructor
  · intro ts now res e hres he
    have hres2 : res = MedianCalculator.mcCore ts now := by
      by_cases hl : ts.length = 12
      · rw [MedianCalculator.calculateMedian, if_pos hl] at hres
        cases hres
        rfl
      · rw [MedianCalculator.calculateMedian, if_neg hl] at hres
        cases hres
    subst hres2
    obtain ⟨h1, h2, h3⟩ := MedianCalculator.mcCore_partition he
    refine ⟨?_, h1, h2, h3⟩
    rcases lt_trichotomy 0 e.marginVsMedian with hgt | heq | hlt
    · exact Or.inl (h1.2 hgt)
    · exact Or.inr (Or.inr (h3.2 heq.symm))
    · exact Or.inr (Or.inl (h2.2 hlt))
  · intro td median e he
    obtain ⟨h1, h2, h3⟩ := ScoringAgent.rankTeams_partition he
    refine ⟨?_, h1, h2, h3⟩
    rcases lt_trichotomy 0 e.marginVsMedian with hgt | heq | hlt
    · exact Or.inl (h1.2 hgt)
    · exact Or.inr (Or.inr (h3.2 heq.symm))
    · exact Or.inr (Or.inl (h2.2 hlt))

/-- Witness for C3: the first ranked entry of the Scenario A result, for
both the `MedianCalculator` and the standard-strategy ranking. -/
theorem claimC3_witness :
    (MedianCalculator.calculateMedian tdA "t" = .ok (MedianCalculator.mcCore tdA "t") ∧
      (MedianCalculator.mcCore tdA "t").teams.headD mcDummy ∈
        (MedianCalculator.mcCore tdA "t").teams ∧
      (ScoringAgent.rankTeams tdA 95.85).headD saDummy ∈ ScoringAgent.rankTeams tdA 95.85) ∧
    (((MedianCalculator.mcCore tdA "t").teams.headD mcDummy).result = "WIN" ↔
      0 < ((MedianCalculator.mcCore tdA "t").teams.headD mcDummy).marginVsMedian) ∧
    (((ScoringAgent.rankTeams tdA 95.85).headD saDummy).result = "WIN" ↔
      0 < ((ScoringAgent.rankTeams tdA 95.85).headD saDummy).marginVsMedian) := by
  have hmc : (MedianCalculator.mcCore tdA "t").teams ≠ [] := by
    intro hnil
    have := congrArg List.length hnil
    rw [mcCore_teams_length] at this
    simp [tdA] at this
  have hsa : ScoringAgent.rankTeams tdA 95.85 ≠ [] := by
    intro hnil
    have := congrArg List.length hnil
    rw [rankTeams_length] at this
    simp [tdA] at this
  refine ⟨⟨rfl, headD_mem _ hmc, headD_mem _ hsa⟩, ?_, ?_⟩
  · exact ((claimC3_outcome_partition.1 tdA "t" (MedianCalculator.mcCore tdA "t")
      _ rfl (headD_mem _ hmc)).2).1
  · exact ((claimC3_outcome_partition.2 tdA 95.85 _ (headD_mem _ hsa)).2).1

set_option maxHeartbeats 2000000 in
/-- Claim C2: on the Scenario A scores the standard strategy computes
median 95.85 (the rounded average of the sixth and seventh highest
scores); the entry at 97.40 is a WIN with margin +1.55 and the entry at
94.30 a LOSS with margin −1.55 — shown for both the `MedianCalculator`
standard calculation and the `ScoringAgent` standard strategy, via the
full ranked (score, result, margin) table. -/
theorem claimC2_scenarioA :
    MedianCalculator.calculateMedian tdA "t" = .ok (MedianCalculator.mcCore tdA "t") ∧
    (MedianCalculator.mcCore tdA "t").median = 95.85 ∧
    ((MedianCalculator.mcCore tdA "t").teams.map fun t => (t.score, t.result, t.marginVsMedian)) =
      [(124.20, "WIN", 28.35), (117.50, "WIN", 21.65), (111.50, "WIN", 15.65),
       (107.30, "WIN", 11.45), (101.50, "WIN", 5.65), (97.40, "WIN", 1.55),
       (94.30, "LOSS", -1.55), (91.60, "LOSS", -4.25), (87.20, "LOSS", -8.65),
       (83.30, "LOSS", -12.55), (78.70, "LOSS", -17.15), (74.42, "LOSS", -21.43)] ∧
    (ScoringAgent.rfflCore tdA).median = 95.85 ∧
    ((ScoringAgent.rfflCore tdA).teams.map fun t => (t.score, t.result, t.marginVsMedian)) =
      [(124.20, "WIN", 28.35), (117.50, "WIN", 21.65), (111.50, "WIN", 15.65),
       (107.30, "WIN", 11.45), (101.50, "WIN", 5.65), (97.40, "WIN", 1.55),
       (94.30, "LOSS", -1.55), (91.60, "LOSS", -4.25), (87.20, "LOSS", -8.65),
       (83.30, "LOSS", -12.55), (78.70, "LOSS", -17.15), (74.42, "LOSS", -21.43)] := by
  refine ⟨rfl, ?_, ?_, ?_, ?_⟩ <;>
    norm_num [MedianCalculator.mcCore, MedianCalculator.mcRank,
      MedianCalculator.roundScore, ScoringAgent.rfflCore, ScoringAgent.rankTeams,
      stableSort, stableInsert, withIdx, round2, jsRound, tdA, mkTeam, List.getD]

theorem outlier_teams_eval :
    (ScoringAgent.stdFull outlierTeams 0 0).teams =
      [⟨⟨some "T12", none, 135, 135⟩, "WIN", 45⟩,
       ⟨⟨some "T01", none, 90, 90⟩, "TIE", 0⟩, ⟨⟨some "T02", none, 90, 90⟩, "TIE", 0⟩,
       ⟨⟨some "T03", none, 90, 90⟩, "TIE", 0⟩, ⟨⟨some "T04", none, 90, 90⟩, "TIE", 0⟩,
       ⟨⟨some "T05", none, 90, 90⟩, "TIE", 0⟩, ⟨⟨some "T06", none, 90, 90⟩, "TIE", 0⟩,
       ⟨⟨some "T07", none, 90, 90⟩, "TIE", 0⟩, ⟨⟨some "T08", none, 90, 90⟩, "TIE", 0⟩,
       ⟨⟨some "T09", none, 90, 90⟩, "TIE", 0⟩, ⟨⟨some "T10", none, 90, 90⟩, "TIE", 0⟩,
       ⟨⟨some "T11", none, 90, 90⟩, "TIE", 0⟩] := by
  norm_num [ScoringAgent.stdFull, ScoringAgent.rfflCore, ScoringAgent.rankTeams,
    stableSort, stableInsert, outlierTeams, mkTeam, List.getD, round2, jsRound]

theorem outlier_median_eval : (ScoringAgent.stdFull outlierTeams 0 0).median = 90 := by
  norm_num [ScoringAgent.stdFull, ScoringAgent.rfflCore,
    stableSort, stableInsert, outlierTeams, mkTeam, List.getD, round2, jsRound]

theorem outlier_verdict_eval :
    ScoringAgent.performAnomalyDetection (ScoringAgent.stdFull outlierTeams 0 0) [] =
      ⟨true, [⟨"score_clustering", 1/3⟩], 1/3,
        [⟨"historical", ⟨false, [], 0⟩, 85/100⟩,
         ⟨"pattern", ⟨true, [⟨"score_clustering", 1/3⟩], 1/3⟩, 8/10⟩]⟩ := by
  rw [ScoringAgent.performAnomalyDetection, ScoringAgent.dataToJS,
    outlier_teams_eval, outlier_median_eval]
  norm_num +decide [ScoringAgent.detectAnomalies, ScoringAgent.detectStatisticalAnomalies,
    ScoringAgent.detectHistoricalAnomalies, ScoringAgent.detectPatternAnomalies,
    ScoringAgent.detectProjectionAnomalies, ScoringAgent.aggregateAnomalyResults,
    ScoringAgent.emptyReport, ScoringAgent.severityOf, ScoringAgent.teamToJS,
    JSVal.getField, JSVal.toNumQ, lookupField, concatMap, stableSort, stableInsert,
    jsMaxList, jsMax2, jsMin2, jsAbs, listSum]

theorem outlier_mean_eval :
    meanQ [135, 90, 90, 90, 90, 90, 90, 90, 90, 90, 90, 90] = (375 : ℚ)/4 := by
  norm_num [meanQ, listSum]

theorem outlier_var_eval :
    varianceQ [135, 90, 90, 90, 90, 90, 90, 90, 90, 90, 90, 90] = (2475 : ℚ)/16 := by
  rw [varianceQ, outlier_mean_eval]
  norm_num [listSum]

theorem outlier_std_eval :
    calculateStandardDeviation [135, 90, 90, 90, 90, 90, 90, 90, 90, 90, 90, 90] =
      (49 : ℚ)/4 := by
  rw [calculateStandardDeviation, outlier_var_eval]
  have h1 : natSqrtQ 2475 = 49 := by decide
  have h2 : natSqrtQ 16 = 4 := by decide
  norm_num [jsSqrt, Int.toNat, h1, h2]

theorem outlier_direct_eval :
    ScoringAgent.detectStatisticalAnomalies
        (.arr ((ScoringAgent.stdFull outlierTeams 0 0).teams.map
          fun t => JSVal.num t.score)) =
      .ok ⟨true, [⟨"statistical_outlier", 1⟩], 1⟩ := by
  rw [outlier_teams_eval]
  norm_num [ScoringAgent.detectStatisticalAnomalies, ScoringAgent.severityOf,
    JSVal.toNumQ, List.filterMap, outlier_mean_eval, outlier_var_eval,
    outlier_std_eval, jsMaxList, jsMax2, jsMin2, jsAbs, listSum]

/-- Claim C6 (code bug): on the maximal-outlier twelve-entry input (the
claim's premise of an entry 3.5 standard deviations above the set's own
mean is unattainable for twelve entries — the largest possible z-score is
the square root of 11, about 3.317, realised here) the anomaly pipeline
produces no statistical-outlier finding: the statistical detector
receives the whole data object, whose `.reduce` is undefined, throws and
is dropped (as is the projection detector), leaving only the historical
and pattern detectors; `hasAnomalies = true` comes solely from the
pattern detector's `score_clustering` finding. Called directly on the
scores array, as the detector's registry signature intends, the
statistical detector does report a `statistical_outlier` finding of
severity 1 > 0.8. -/
theorem claimC6_pipeline_drops_statistical_outlier :
    ((ScoringAgent.performAnomalyDetection
        (ScoringAgent.stdFull outlierTeams 0 0) []).detectorResults.map
        fun d => d.detector) = ["historical", "pattern"] ∧
    ((ScoringAgent.performAnomalyDetection
        (ScoringAgent.stdFull outlierTeams 0 0) []).anomalies.filter
        fun a => a.type == "statistical_outlier") = [] ∧
    (ScoringAgent.performAnomalyDetection
        (ScoringAgent.stdFull outlierTeams 0 0) []).hasAnomalies = true ∧
    (ScoringAgent.performAnomalyDetection
        (ScoringAgent.stdFull outlierTeams 0 0) []).anomalies =
      [⟨"score_clustering", 1/3⟩] ∧
    ScoringAgent.detectStatisticalAnomalies
        (.arr ((ScoringAgent.stdFull outlierTeams 0 0).teams.map
          fun t => JSVal.num t.score)) =
      .ok ⟨true, [⟨"statistical_outlier", 1⟩], 1⟩ := by
  rw [outlier_verdict_eval, outlier_direct_eval]
  refine ⟨rfl, by simp, rfl, rfl, rfl⟩

theorem firstTeamError_eq_none_iff {raw : List RawTeam} (n : Nat) :
    MedianCalculator.firstTeamError (withIdx n raw) = none ↔
      ∀ t ∈ raw, (t.score.isNumberType = true ∧ t.score.isNaNNum = false) ∧
        (t.team.isNone && t.canonicalCode.isNone) = false := by
  induction raw generalizing n with
  | nil => simp [withIdx, MedianCalculator.firstTeamError]
  | cons a t ih =>
    obtain ⟨ateam, acode, ascore⟩ := a
    cases hnum : ascore.isNumberType <;> cases hnan : ascore.isNaNNum <;>
      cases ateam <;> cases acode <;>
        simp [withIdx, MedianCalculator.firstTeamError, hnum, hnan, ih]

theorem validateTeamData_ok_iff (raw : List RawTeam) :
    MedianCalculator.validateTeamData raw = .ok true ↔
      (raw.length = 12 ∧ ∀ t ∈ raw,
        (t.score.isNumberType = true ∧ t.score.isNaNNum = false) ∧
          (t.team.isNone && t.canonicalCode.isNone) = false) := by
  unfold MedianCalculator.validateTeamData
  by_cases hl : raw.length = 12
  · rw [if_neg (by simp [hl])]
    rcases h : MedianCalculator.firstTeamError (withIdx 0 raw) with _ | m
    · have hall := (firstTeamError_eq_none_iff 0).1 h
      simp only [h]
      constructor
      · intro _
        exact ⟨hl, hall⟩
      · intro _
        trivial
    · constructor
      · intro hh
        exact Except.noConfusion hh
      · rintro ⟨-, hall⟩
        have h2 := (firstTeamError_eq_none_iff 0).2 hall
        rw [h] at h2
        cases h2
  · rw [if_pos (by simpa using hl)]
    constructor
    · intro hh
      exact Except.noConfusion hh
    · rintro ⟨h12, -⟩
      exact absurd h12 hl

/-- Counterexample to claim C8: neither input validator reports any error
on a twelve-entry candidate whose identifiers are all duplicated, and the
engine's pre-validator likewise accepts a candidate whose first score is
`NaN` — both conditions the claim says are always reported. -/
theorem claimC8_counterexample :
    (dupRaw.getD 0 ⟨none, none, .fin 0⟩).team = some "T1" ∧
    (dupRaw.getD 1 ⟨none, none, .fin 0⟩).team = some "T1" ∧
    (nanRaw.getD 0 ⟨none, none, .fin 0⟩).score = JSNum.nan ∧
    dupRaw.length = 12 ∧ nanRaw.length = 12 ∧
    (ScoringAgent.preValidateData dupRaw).isValid = true ∧
    MedianCalculator.validateTeamData dupRaw = .ok true ∧
    (ScoringAgent.preValidateData nanRaw).isValid = true := by
  refine ⟨rfl, rfl, rfl, rfl, rfl, ?_, rfl, ?_⟩
  · norm_num [ScoringAgent.preValidateData, ScoringAgent.preTeamErrors,
      concatMap, withIdx, dupRaw, JSNum.isNumberType, JSNum.ltNum, JSNum.gtNum]
  · norm_num [ScoringAgent.preValidateData, ScoringAgent.preTeamErrors,
      concatMap, withIdx, nanRaw, JSNum.isNumberType, JSNum.ltNum, JSNum.gtNum]

/-- Amended claim C8: `preValidateData` reports a per-entry field error
exactly for a score that is not of number type or that compares below 0
or above 300 (`NaN` fails both comparisons and is accepted; identifiers
are never examined), and `validateTeamData` reports an error exactly for
a score that is not of number type or is `NaN`, or an entry whose two
identifier fields are both missing (with no range check); duplicated
identifiers are reported by neither validator. -/
theorem claimC8_validator_characterization (raw : List RawTeam) :
    ((ScoringAgent.preValidateData raw).isValid = true ↔
      (raw.length = 12 ∧ ∀ t ∈ raw,
        t.score.isNumberType = true ∧ t.score.ltNum 0 = false ∧
          t.score.gtNum 300 = false)) ∧
    (MedianCalculator.validateTeamData raw = .ok true ↔
      (raw.length = 12 ∧ ∀ t ∈ raw,
        (t.score.isNumberType = true ∧ t.score.isNaNNum = false) ∧
          (t.team.isNone && t.canonicalCode.isNone) = false)) :=
  ⟨ScoringAgent.preValidateData_isValid_iff raw, validateTeamData_ok_iff raw⟩

/-- Counterexample to claim C9: two invocations of the same strategy
through the engine on the same ScoreSet are not bit-identical — the
`calculationTime` annotation is the elapsed wall clock of that invocation
(and a `MedianCalculator` result likewise carries the wall-clock
`calculatedAt` stamp). -/
theorem claimC9_counterexample :
    ScoringAgent.calculateWithAlgorithm "rffl_standard" tdA 0 1 ≠
      ScoringAgent.calculateWithAlgorithm "rffl_standard" tdA 0 2 ∧
    MedianCalculator.calculateMedian tdA "2025-01-01T00:00:00Z" ≠
      MedianCalculator.calculateMedian tdA "2025-01-01T00:00:01Z" := by
  constructor
  · intro hEq
    have e1 : ScoringAgent.calculateWithAlgorithm "rffl_standard" tdA 0 1 =
        .ok (ScoringAgent.stdFull tdA 0 1) := rfl
    have e2 : ScoringAgent.calculateWithAlgorithm "rffl_standard" tdA 0 2 =
        .ok (ScoringAgent.stdFull tdA 0 2) := rfl
    rw [e1, e2] at hEq
    have h3 := congrArg (fun e : Except String ScoringAgent.CalcFull =>
      e.toOption.map fun r => r.calculationTime) hEq
    simp only [Except.toOption, Option.map, ScoringAgent.stdFull] at h3
    have h4 : (1 : ℚ) - 0 = 2 - 0 := by
      have h5 := Option.some.inj h3
      exact h5
    norm_num at h4
  · intro hEq
    have e1 : MedianCalculator.calculateMedian tdA "2025-01-01T00:00:00Z" =
        .ok (MedianCalculator.mcCore tdA "2025-01-01T00:00:00Z") := rfl
    have e2 : MedianCalculator.calculateMedian tdA "2025-01-01T00:00:01Z" =
        .ok (MedianCalculator.mcCore tdA "2025-01-01T00:00:01Z") := rfl
    rw [e1, e2] at hEq
    have h3 := congrArg (fun e : Except String MedianCalculator.MCResult =>
      e.toOption.map fun r => r.calculatedAt) hEq
    simp only [Except.toOption, Option.map, MedianCalculator.mcCore] at h3
    exact absurd (Option.some.inj h3) (by simp)

/-- Amended claim C9: two invocations of the same strategy through the
engine on a fixed ScoreSet agree on every field except the wall-clock
annotation — erasing `calculationTime` (and, for `MedianCalculator`,
`calculatedAt`) yields identical results for arbitrary clock readings, so
the result is a deterministic function of the ScoreSet alone apart from
those timing fields. -/
theorem claimC9_determinism_modulo_timing (name : String) (td : List Team)
    (t0 t1 s0 s1 : ℚ) (nowA nowB : String) :
    (ScoringAgent.calculateWithAlgorithm name td t0 t1).map
        ScoringAgent.CalcFull.eraseTime =
      (ScoringAgent.calculateWithAlgorithm name td s0 s1).map
        ScoringAgent.CalcFull.eraseTime ∧
    (MedianCalculator.calculateMedian td nowA).map
        MedianCalculator.MCResult.eraseCalculatedAt =
      (MedianCalculator.calculateMedian td nowB).map
        MedianCalculator.MCResult.eraseCalculatedAt := by
  constructor
  · unfold ScoringAgent.calculateWithAlgorithm
    cases ScoringAgent.algBase name td with
    | error e => rfl
    | ok v => rfl
  · unfold MedianCalculator.calculateMedian
    by_cases hl : td.length = 12
    · rw [if_pos hl, if_pos hl]
      rfl
    · rw [if_neg hl, if_neg hl]
